import Mathlib

/-!
# Verification of the Host Agent orchestration layer

A shallow embedding of `EyeVi_Agent/app/agents/host_agent/main.py` (the
FastAPI HTTP layer of the host agent) together with spec-modelled
definitions for the orchestration core (`server/host_server.py` and
`server/a2a_client_manager.py`, which are referenced by `main.py` but whose
sources are not part of this repository snapshot).

Conventions of the embedding:
* Python `str` is Lean `String`; Python `bytes` is `List Nat` together with
  a side condition that every element is `< 256`.
* Python `Optional[str]` is `Option String`; Python truthiness of an
  optional string (`if not session_id`) treats both `none` and `some ""`
  as falsy, which the embedding spells out explicitly.
* Python dict-shaped JSON responses become Lean structures.
* Exceptions raised across the handler boundary become `Except` values.
-/

/-! ## Data model -/

/-- One chat message, as stored in a `ChatHistory`
(a dict with `role`, `content` and a timestamp in the Python sources). -/
structure Message where
  role : String
  content : String
  timestamp : String
deriving Repr, DecidableEq

/-- Per-session conversation history (`ChatHistory` in
`server/a2a_client_manager.py`): an ordered list of messages plus the two
timestamps serialized by the endpoints via `.isoformat()` (kept abstract as
strings here). -/
structure ChatHistory where
  messages : List Message
  created_at : String
  last_updated : String
deriving Repr, DecidableEq

/-- `FileInfo` from `server.a2a_client_manager`: the normalized attachment
built in the `/chat` handler — `name`, `mime_type` and base64 `data`. -/
structure FileInfo where
  name : String
  mime_type : String
  data : String
deriving Repr, DecidableEq

/-- An uploaded file as the `/chat` handler sees it (FastAPI `UploadFile`):
`filename` and `content_type` are optional strings, `content` is the byte
string returned by `await file.read()`. -/
structure UploadFile where
  filename : Option String
  content_type : Option String
  content : List Nat
deriving Repr, DecidableEq

/-- The `ChatResponse` pydantic model of `main.py`. -/
structure ChatResponse where
  response : String
  agent_used : Option String := none
  session_id : Option String := none
  clarified_message : Option String := none
  analysis : Option String := none
  data : Option String := none
  status : String := "success"
  timestamp : String
deriving Repr, DecidableEq

/-- A raised `HTTPException` (status code and detail), the only fault that
can cross a handler boundary in `main.py`. -/
structure HTTPError where
  status_code : Nat
  detail : String
deriving Repr, DecidableEq

/-! ## Base64 (the `base64.b64encode` / `base64.b64decode` pair used on
attachment payloads) -/

/-- The standard base64 alphabet, in index order. -/
def b64chars : List Char :=
  ['A', 'B', 'C', 'D', 'E', 'F', 'G', 'H', 'I', 'J', 'K', 'L', 'M',
   'N', 'O', 'P', 'Q', 'R', 'S', 'T', 'U', 'V', 'W', 'X', 'Y', 'Z',
   'a', 'b', 'c', 'd', 'e', 'f', 'g', 'h', 'i', 'j', 'k', 'l', 'm',
   'n', 'o', 'p', 'q', 'r', 's', 't', 'u', 'v', 'w', 'x', 'y', 'z',
   '0', '1', '2', '3', '4', '5', '6', '7', '8', '9', '+', '/']

/-- Character for a sextet value (index into the base64 alphabet). -/
def sextetChar (n : Nat) : Char := b64chars.getD n 'A'

/-- Sextet value of an alphabet character (inverse of `sextetChar` on the
alphabet). -/
def sextetVal (ch : Char) : Nat := b64chars.indexOf ch

/-- `base64.b64encode` on a byte sequence, producing the character list of
the ASCII result (standard alphabet, `=`-padded), three input bytes per
four output characters. -/
def b64encode : List Nat → List Char
  | [] => []
  | [a] =>
      [sextetChar (a / 4), sextetChar (a % 4 * 16), '=', '=']
  | [a, b] =>
      [sextetChar (a / 4), sextetChar (a % 4 * 16 + b / 16),
       sextetChar (b % 16 * 4), '=']
  | a :: b :: c :: rest =>
      sextetChar (a / 4) :: sextetChar (a % 4 * 16 + b / 16) ::
      sextetChar (b % 16 * 4 + c / 64) :: sextetChar (c % 64) ::
      b64encode rest

/-- `base64.b64decode` on well-formed input: four characters per three
output bytes, with `=`-padding cutting the final quantum short. -/
def b64decode : List Char → List Nat
  | c1 :: c2 :: c3 :: c4 :: rest =>
      if c3 = '=' then
        [sextetVal c1 * 4 + sextetVal c2 / 16]
      else if c4 = '=' then
        [sextetVal c1 * 4 + sextetVal c2 / 16,
         sextetVal c2 % 16 * 16 + sextetVal c3 / 4]
      else
        (sextetVal c1 * 4 + sextetVal c2 / 16) ::
        (sextetVal c2 % 16 * 16 + sextetVal c3 / 4) ::
        (sextetVal c3 % 4 * 64 + sextetVal c4) ::
        b64decode rest
  | _ => []

theorem sextetVal_sextetChar : ∀ n : Nat, n < 64 → sextetVal (sextetChar n) = n := by
  decide

theorem sextetChar_ne_pad : ∀ n : Nat, n < 64 → sextetChar n ≠ '=' := by
  decide

theorem b64decode_quad (c1 c2 c3 c4 : Char) (rest : List Char)
    (h3 : c3 ≠ '=') (h4 : c4 ≠ '=') :
    b64decode (c1 :: c2 :: c3 :: c4 :: rest) =
      (sextetVal c1 * 4 + sextetVal c2 / 16) ::
      (sextetVal c2 % 16 * 16 + sextetVal c3 / 4) ::
      (sextetVal c3 % 4 * 64 + sextetVal c4) :: b64decode rest := by
  simp [b64decode, h3, h4]

theorem b64decode_pad2 (c1 c2 : Char) :
    b64decode [c1, c2, '=', '='] = [sextetVal c1 * 4 + sextetVal c2 / 16] := by
  simp [b64decode]

theorem b64decode_pad1 (c1 c2 c3 : Char) (h3 : c3 ≠ '=') :
    b64decode [c1, c2, c3, '='] =
      [sextetVal c1 * 4 + sextetVal c2 / 16,
       sextetVal c2 % 16 * 16 + sextetVal c3 / 4] := by
  simp [b64decode, h3]

/-- Decoding inverts encoding on every byte sequence. -/
theorem b64decode_b64encode :
    ∀ bs : List Nat, (∀ x ∈ bs, x < 256) → b64decode (b64encode bs) = bs
  | [], _ => rfl
  | [a], h => by
      have ha : a < 256 := h a (by simp)
      have h1 : a / 4 < 64 := by omega
      have h2 : a % 4 * 16 < 64 := by omega
      show b64decode [sextetChar (a / 4), sextetChar (a % 4 * 16), '=', '='] = [a]
      rw [b64decode_pad2, sextetVal_sextetChar _ h1, sextetVal_sextetChar _ h2,
        List.cons_eq_cons]
      exact ⟨by omega, rfl⟩
  | [a, b], h => by
      have ha : a < 256 := h a (by simp)
      have hb : b < 256 := h b (by simp)
      have h1 : a / 4 < 64 := by omega
      have h2 : a % 4 * 16 + b / 16 < 64 := by omega
      have h3 : b % 16 * 4 < 64 := by omega
      show b64decode [sextetChar (a / 4), sextetChar (a % 4 * 16 + b / 16),
        sextetChar (b % 16 * 4), '='] = [a, b]
      rw [b64decode_pad1 _ _ _ (sextetChar_ne_pad _ h3),
        sextetVal_sextetChar _ h1, sextetVal_sextetChar _ h2,
        sextetVal_sextetChar _ h3, List.cons_eq_cons, List.cons_eq_cons]
      exact ⟨by omega, by omega, rfl⟩
  | a :: b :: c :: rest, h => by
      have ha : a < 256 := h a (by simp)
      have hb : b < 256 := h b (by simp)
      have hc : c < 256 := h c (by simp)
      have h1 : a / 4 < 64 := by omega
      have h2 : a % 4 * 16 + b / 16 < 64 := by omega
      have h3 : b % 16 * 4 + c / 64 < 64 := by omega
      have h4 : c % 64 < 64 := by omega
      have ih : b64decode (b64encode rest) = rest :=
        b64decode_b64encode rest (fun x hx => h x (by simp [hx]))
      show b64decode (sextetChar (a / 4) :: sextetChar (a % 4 * 16 + b / 16) ::
        sextetChar (b % 16 * 4 + c / 64) :: sextetChar (c % 64) ::
        b64encode rest) = a :: b :: c :: rest
      rw [b64decode_quad _ _ _ _ _ (sextetChar_ne_pad _ h3) (sextetChar_ne_pad _ h4),
        sextetVal_sextetChar _ h1, sextetVal_sextetChar _ h2,
        sextetVal_sextetChar _ h3, sextetVal_sextetChar _ h4, ih,
        List.cons_eq_cons, List.cons_eq_cons, List.cons_eq_cons]
      exact ⟨by omega, by omega, by omega, rfl⟩

/-! ## Attachment normalization (the `/chat` handler, lines 112–133 of
`main.py`) -/

/-- Python truthiness of `file.filename` (`if file.filename:`): true only
for a present, non-empty filename. -/
def filenameTruthy (f : UploadFile) : Bool :=
  match f.filename with
  | none => false
  | some s => !s.isEmpty

/-- The body of the per-file loop: base64-encode the content and compute
`mime_type = file.content_type or "application/octet-stream"`
(Python `or`: both `none` and `some ""` fall through to the default). -/
def mkFileInfo (f : UploadFile) : FileInfo :=
  { name := f.filename.getD ""
    mime_type :=
      match f.content_type with
      | none => "application/octet-stream"
      | some s => if s = "" then "application/octet-stream" else s
    data := String.mk (b64encode f.content) }

/-- `processed_files` as computed by the handler: `none` (Python `None`)
unless `files` is a non-empty list containing at least one file with a
truthy filename (`if files and any(file.filename for file in files)`);
otherwise the `FileInfo` list for exactly the files with truthy
filenames. -/
def processFiles (files : Option (List UploadFile)) : Option (List FileInfo) :=
  match files with
  | none => none
  | some fs =>
      if fs ≠ [] ∧ fs.any filenameTruthy then
        some (fs.filterMap fun f =>
          if filenameTruthy f then some (mkFileInfo f) else none)
      else none

/-- Session-id resolution at the top of the handler
(`if not session_id: session_id = str(uuid4())`): `fresh` stands for the
`uuid4()` value drawn in that branch; `none` and `some ""` are both falsy
in Python, so both are replaced by `fresh`. -/
def resolveSessionId (session_id : Option String) (fresh : String) : String :=
  match session_id with
  | none => fresh
  | some s => if s = "" then fresh else s

/-! ## Spec-modelled Dispatcher -/

/-- Request-processing states of the Dispatcher state machine (spec §4.3). -/
inductive DispatchState where
  | received
  | resolved
  | dispatched
  | completed
  | failed
deriving Repr, DecidableEq

/-- Terminal status of a dispatch (spec §3 `DispatchResult`, §7 taxonomy). -/
inductive DStatus where
  | success
  | failure
  | validationError
  | noAgentAvailable
deriving Repr, DecidableEq

/-- Outcome of the Agent Client call for the selected agent (spec §4.4):
either a structured response or one of the closed failure variants,
delivered as a typed result, never as a raised fault. -/
inductive AgentOutcome where
  | answered (text : String) (clarified analysis payload : Option String)
  | unreachable (diag : String)
  | timeout (diag : String)
  | protocolError (diag : String)
  | rejected (diag : String)
deriving Repr, DecidableEq

/-- Whether the Agent Client call failed. -/
def AgentOutcome.isFailure : AgentOutcome → Bool
  | .answered _ _ _ _ => false
  | _ => true

/-- The result dict returned by `process_message` /
`process_message_with_files`. -/
structure DispatchResult where
  response : String
  agent_used : Option String := none
  session_id : String
  clarified_message : Option String := none
  analysis : Option String := none
  data : Option String := none
  status : DStatus
deriving Repr, DecidableEq

/-- A dispatch result together with the trace of state-machine states the
request went through and whether the Agent Client was invoked. -/
structure DispatchOutcome where
  result : DispatchResult
  states : List DispatchState
  agentInvoked : Bool
deriving Repr, DecidableEq

/-- Terminal outcome of a dispatch whose Agent Client call failed:
status `failure` with a diagnostic, reached through the full
`received → resolved → dispatched → failed` trace. -/
def failedOutcome (agent diag session_id : String) : DispatchOutcome :=
  { result := { response := diag
                agent_used := some agent
                session_id := session_id
                status := .failure }
    states := [.received, .resolved, .dispatched, .failed]
    agentInvoked := true }

/-- Modelled from the spec: `HostServer.process_message` /
`process_message_with_files` (`server/host_server.py` is not part of this
repository snapshot). Per spec §4.3/§7: an empty message is rejected in
the `Received` state before any dispatch (`ValidationError`); with no
resolvable agent the request ends after `Resolved` with a no-handler
result; otherwise the Agent Client outcome is recorded, a failure being
converted into a structured failure result rather than a raised fault. -/
def process_message (client : AgentOutcome) (resolvedAgent : Option String)
    (message : String) (session_id : String)
    (_files : Option (List FileInfo)) : DispatchOutcome :=
  if message = "" then
    { result := { response := "Message must not be empty"
                  session_id := session_id
                  status := .validationError }
      states := [.received]
      agentInvoked := false }
  else
    match resolvedAgent with
    | none =>
        { result := { response := "No agent available to handle this request"
                      session_id := session_id
                      status := .noAgentAvailable }
          states := [.received, .resolved]
          agentInvoked := false }
    | some agent =>
        match client with
        | .answered text clarified analysis payload =>
            { result := { response := text
                          agent_used := some agent
                          session_id := session_id
                          clarified_message := clarified
                          analysis := analysis
                          data := payload
                          status := .success }
              states := [.received, .resolved, .dispatched, .completed]
              agentInvoked := true }
        | .unreachable diag => failedOutcome agent diag session_id
        | .timeout diag => failedOutcome agent diag session_id
        | .protocolError diag => failedOutcome agent diag session_id
        | .rejected diag => failedOutcome agent diag session_id

/-- The `/chat` handler of `main.py`. `fresh` stands for the `uuid4()`
drawn when no truthy session id was supplied; `client` and
`resolvedAgent` parameterize the downstream behaviour of the spec-modelled
`process_message`; `now` is the `datetime.now().isoformat()` timestamp of
the response. `Except.error` marks a raised `HTTPException`; since the
modelled orchestration core returns structured results instead of raising,
the handler always reaches the `ChatResponse` (whose `status` field it
hard-codes to `"success"`). -/
def chat (message : String) (_user_id : Option String)
    (session_id : Option String) (files : Option (List UploadFile))
    (fresh : String) (client : AgentOutcome) (resolvedAgent : Option String)
    (now : String) : Except HTTPError ChatResponse :=
  let sid := resolveSessionId session_id fresh
  let processed := processFiles files
  let outcome := process_message client resolvedAgent message sid processed
  Except.ok
    { response := outcome.result.response
      agent_used := outcome.result.agent_used
      session_id := some outcome.result.session_id
      clarified_message := outcome.result.clarified_message
      analysis := outcome.result.analysis
      data := outcome.result.data
      status := "success"
      timestamp := now }

/-! ## Chat history retrieval (`GET /sessions/{session_id}/history`) -/

/-- Modelled from the spec: `ChatHistory.get_recent_messages`
(`server/a2a_client_manager.py`, not part of this repository snapshot);
spec §4.1 `recent`: "returns the last `limit` messages in insertion
order". -/
def get_recent_messages (msgs : List Message) (limit : Nat) : List Message :=
  msgs.drop (msgs.length - limit)

/-- The JSON body returned by `get_chat_history`; the fields that the
no-history branch omits are `none` there. -/
structure HistoryResponse where
  status : String
  session_id : String
  user_id : Option String
  messages : List Message
  created_at : Option String := none
  last_updated : Option String := none
  total_messages : Option Nat := none
deriving Repr, DecidableEq

/-- `get_chat_history` from `main.py`. The store lookup
(`host_server.get_chat_history` / `get_chat_history_fallback`, spec §4.1)
is abstracted as `store`; a session with no stored history takes the
`if not chat_history` branch (status `"success"`, empty message list),
otherwise the most recent 50 messages and the total count are returned. -/
def get_chat_history (store : String → Option ChatHistory)
    (session_id : String) (user_id : Option String) : HistoryResponse :=
  match store session_id with
  | none =>
      { status := "success"
        session_id := session_id
        user_id := user_id
        messages := [] }
  | some h =>
      { status := "success"
        session_id := session_id
        user_id := user_id
        messages := get_recent_messages h.messages 50
        created_at := some h.created_at
        last_updated := some h.last_updated
        total_messages := some h.messages.length }

/-! ## Session creation and listing -/

/-- The server-side session map
(`host_server.a2a_client_manager.chat_histories`): an insertion-ordered
association list, as a Python dict is. -/
structure ServerState where
  chat_histories : List (String × ChatHistory)
deriving Repr, DecidableEq

/-- Whether a session id already has a chat history. -/
def hasSession (st : ServerState) (sid : String) : Bool :=
  st.chat_histories.any fun p => p.1 = sid

/-- Modelled from the spec: `_ensure_chat_history`
(`server/a2a_client_manager.py`, not part of this repository snapshot);
spec §4.1 `ensureHistory`: "returns existing history or creates an empty
one; idempotent; never fails". `now` is the creation timestamp. -/
def ensure_chat_history (st : ServerState) (sid : String) (now : String) :
    ServerState :=
  if hasSession st sid then st
  else { chat_histories := st.chat_histories ++ [(sid, ⟨[], now, now⟩)] }

/-- Response of `POST /sessions/create`. -/
structure CreateSessionResponse where
  status : String
  session_id : String
deriving Repr, DecidableEq

/-- `create_new_session` from `main.py`: draws a `uuid4()` (the `fresh`
parameter), initializes a chat history for it via `_ensure_chat_history`,
and returns the new id with status `"success"`. -/
def create_new_session (st : ServerState) (fresh : String) (now : String) :
    ServerState × CreateSessionResponse :=
  (ensure_chat_history st fresh now,
   { status := "success", session_id := fresh })

/-- One entry of the session listings built by `list_active_sessions` and
`get_user_sessions`. -/
structure SessionInfo where
  session_id : String
  created_at : String
  last_updated : String
  message_count : Nat
  last_message_preview : String
deriving Repr, DecidableEq

/-- Python string slicing `s[:n]`: the first `n` characters of `s`. -/
def sliceTo (s : String) (n : Nat) : String := String.mk (s.data.take n)

/-- The per-session info dict shared by `list_active_sessions` and
`get_user_sessions`; its preview field is
`chat_history.messages[-1]["content"][:100] + "..."
 if chat_history.messages else ""`. -/
def sessionInfoOf (sid : String) (h : ChatHistory) : SessionInfo :=
  { session_id := sid
    created_at := h.created_at
    last_updated := h.last_updated
    message_count := h.messages.length
    last_message_preview :=
      match h.messages.getLast? with
      | none => ""
      | some m => sliceTo m.content 100 ++ "..." }

/-- Response of `GET /sessions`. -/
structure SessionsResponse where
  status : String
  active_sessions : Nat
  sessions : List SessionInfo
deriving Repr, DecidableEq

/-- `list_active_sessions` from `main.py`: one `SessionInfo` per entry of
`chat_histories`, in insertion order. -/
def list_active_sessions (st : ServerState) : SessionsResponse :=
  { status := "success"
    active_sessions := (st.chat_histories.map fun p => sessionInfoOf p.1 p.2).length
    sessions := st.chat_histories.map fun p => sessionInfoOf p.1 p.2 }

/-- Response of `GET /users/{user_id}/sessions`. -/
structure UserSessionsResponse where
  status : String
  user_id : String
  total_sessions : Nat
  sessions : List SessionInfo
deriving Repr, DecidableEq

/-- `get_user_sessions` from `main.py`: `host_server.get_user_sessions`
(spec §4.1 `listSessions(userId)`) is abstracted as the `userSessions`
list; per session the history lookup feeds the same info dict as
`list_active_sessions`, and sessions whose lookup yields nothing are
skipped. -/
def get_user_sessions (userSessions : List String)
    (store : String → Option ChatHistory) (user_id : String) :
    UserSessionsResponse :=
  let infos := userSessions.filterMap fun sid => (store sid).map (sessionInfoOf sid)
  { status := "success"
    user_id := user_id
    total_sessions := infos.length
    sessions := infos }

/-! ## Helper lemmas -/

/-- Every branch of the dispatcher echoes the session id it was given. -/
theorem process_message_session_id (client : AgentOutcome)
    (ra : Option String) (message sid : String)
    (files : Option (List FileInfo)) :
    (process_message client ra message sid files).result.session_id = sid := by
  by_cases hm : message = "" <;>
    cases ra <;>
      cases client <;>
        simp [process_message, hm, failedOutcome]

/-! ## Claim theorems -/

/-- C1: for every `/chat` call (`processMessage` / `processMessageWithFiles`)
whose downstream Agent Client fails, the failure becomes a structured
`DispatchResult` with status `failure`, produced by an actually dispatched
request, and the handler returns a `ChatResponse` rather than letting a
fault escape. -/
theorem agent_failure_structured (client : AgentOutcome)
    (agent message sid : String) (files : Option (List FileInfo))
    (hm : message ≠ "") (hf : client.isFailure = true) :
    (process_message client (some agent) message sid files).result.status = .failure ∧
    (process_message client (some agent) message sid files).agentInvoked = true ∧
    ∀ (user_id session_id : Option String) (ufiles : Option (List UploadFile))
      (fresh now : String),
      ∃ r : ChatResponse,
        chat message user_id session_id ufiles fresh client (some agent) now =
          .ok r := by
  refine ⟨?_, ?_, fun user_id session_id ufiles fresh now => ⟨_, rfl⟩⟩ <;>
    cases client <;>
      simp_all [process_message, AgentOutcome.isFailure, failedOutcome]

/-- C1 witness. -/
theorem agent_failure_structured_witness :
    (process_message (.timeout "timed out") (some "search") "hello" "s1"
      none).result.status = .failure :=
  (agent_failure_structured (.timeout "timed out") "search" "hello" "s1" none
    (by decide) rfl).1

/-- C2: an empty message is rejected before any dispatch: the outcome has
status `validationError`, the state trace never reaches `dispatched`, and
no Agent Client is invoked. -/
theorem empty_message_rejected_before_dispatch (client : AgentOutcome)
    (ra : Option String) (sid : String) (files : Option (List FileInfo)) :
    (process_message client ra "" sid files).result.status = .validationError ∧
    DispatchState.dispatched ∉ (process_message client ra "" sid files).states ∧
    (process_message client ra "" sid files).agentInvoked = false := by
  refine ⟨rfl, ?_, rfl⟩
  simp [process_message]

/-- C3: decoding the base64 payload of the `FileInfo` attachment built by
the normalizer reproduces the uploaded bytes exactly, for every byte
sequence, filename and MIME type. -/
theorem attachment_roundtrip (f : UploadFile)
    (hbytes : ∀ x ∈ f.content, x < 256) :
    b64decode (mkFileInfo f).data.data = f.content :=
  b64decode_b64encode f.content hbytes

/-- C3 witness. -/
theorem attachment_roundtrip_witness :
    b64decode (mkFileInfo ⟨some "img.png", some "image/png",
      [137, 80, 78, 71]⟩).data.data = [137, 80, 78, 71] :=
  attachment_roundtrip ⟨some "img.png", some "image/png", [137, 80, 78, 71]⟩
    (by decide)

/-- C5 counterexample: a supplied session identifier is not always used
unchanged — the empty string is falsy in `if not session_id`, so it is
replaced by the freshly drawn id. -/
theorem empty_session_id_replaced :
    resolveSessionId (some "") "f3b1" = "f3b1" ∧
    resolveSessionId (some "") "f3b1" ≠ "" := by
  exact ⟨rfl, by decide⟩

/-- C5 amended: a missing or empty supplied session id is replaced by the
freshly drawn `uuid4` value, a non-empty supplied id is used unchanged,
and the resolved id is the one echoed in the handler's response. -/
theorem session_id_resolution (fresh now message : String)
    (client : AgentOutcome) (ra : Option String) :
    resolveSessionId none fresh = fresh ∧
    resolveSessionId (some "") fresh = fresh ∧
    (∀ s : String, s ≠ "" → resolveSessionId (some s) fresh = s) ∧
    (∀ (user_id session_id : Option String) (ufiles : Option (List UploadFile)),
      ∃ r : ChatResponse,
        chat message user_id session_id ufiles fresh client ra now = .ok r ∧
        r.session_id = some (resolveSessionId session_id fresh)) := by
  refine ⟨rfl, rfl, fun s hs => by simp [resolveSessionId, hs],
    fun user_id session_id ufiles => ⟨_, rfl, ?_⟩⟩
  simp [chat, process_message_session_id]

/-- C5 witness. -/
theorem session_id_resolution_witness :
    resolveSessionId (some "sess-9") "fresh-1" = "sess-9" :=
  (session_id_resolution "fresh-1" "t0" "hi" (.answered "ok" none none none)
    none).2.2.1 "sess-9" (by decide)

/-- C6 counterexample: a declared-but-empty content type is not preserved:
Python `or` treats `""` as falsy, so it is replaced by the generic binary
marker. -/
theorem empty_content_type_defaulted :
    (mkFileInfo ⟨some "a.png", some "", [1]⟩).mime_type =
      "application/octet-stream" ∧
    (mkFileInfo ⟨some "a.png", some "", [1]⟩).mime_type ≠ "" := by
  exact ⟨rfl, by decide⟩

/-- C6 amended: the attachment MIME type defaults to
`"application/octet-stream"` when the declared content type is missing or
empty, and a non-empty declared content type is preserved unchanged. -/
theorem mime_type_resolution (name : Option String) (bytes : List Nat) :
    (mkFileInfo ⟨name, none, bytes⟩).mime_type = "application/octet-stream" ∧
    (mkFileInfo ⟨name, some "", bytes⟩).mime_type = "application/octet-stream" ∧
    ∀ s : String, s ≠ "" → (mkFileInfo ⟨name, some s, bytes⟩).mime_type = s := by
  refine ⟨rfl, rfl, fun s hs => ?_⟩
  simp [mkFileInfo, hs]

/-- C6 witness. -/
theorem mime_type_resolution_witness :
    (mkFileInfo ⟨some "a.png", some "image/png", [1]⟩).mime_type =
      "image/png" :=
  (mime_type_resolution (some "a.png") [1]).2.2 "image/png" (by decide)

/-- C9: retrieving history for a session with no stored chat history
succeeds with status `"success"` and an empty message list; no error and
no not-found status is produced. -/
theorem missing_history_success (store : String → Option ChatHistory)
    (sid : String) (uid : Option String) (hs : store sid = none) :
    (get_chat_history store sid uid).status = "success" ∧
    (get_chat_history store sid uid).messages = [] := by
  simp [get_chat_history, hs]

/-- C9 witness. -/
theorem missing_history_success_witness :
    (get_chat_history (fun _ => none) "nope" none).status = "success" ∧
    (get_chat_history (fun _ => none) "nope" none).messages = [] :=
  missing_history_success (fun _ => none) "nope" none rfl

/-- C4 counterexample: an upload carrying three bytes but no filename is
not normalized and nothing is forwarded (`processed_files` stays `None`),
although the claim says every upload other than "zero bytes and zero
filename" succeeds and yields a forwarded attachment. -/
theorem upload_without_filename_dropped :
    processFiles (some [⟨none, some "image/png", [1, 2, 3]⟩]) = none := by
  simp [processFiles, filenameTruthy]

/-- A `filterMap` whose function is an `if` over a Bool predicate is the
`map` over the `filter` by that predicate. -/
theorem filterMap_ite_eq_map_filter {α β : Type} (p : α → Bool) (g : α → β) :
    ∀ l : List α,
      (l.filterMap fun x => if p x then some (g x) else none) =
        (l.filter p).map g
  | [] => rfl
  | x :: xs => by
      by_cases h : p x = true <;>
        simp [List.filterMap_cons, List.filter_cons, h,
          filterMap_ite_eq_map_filter p g xs]

/-- C4 amended: an upload is normalized and forwarded exactly when its
filename is truthy (present and non-empty), regardless of payload size —
in particular a zero-byte upload with a filename is normalized — while an
upload with an empty/missing filename is skipped even when it carries
bytes: whatever attachment list is built equals the normalization of
precisely the truthy-filename uploads of the batch, and every entry of it
originates from a truthy-filename upload. A batch in which no upload has a
truthy filename (or an absent batch) produces no attachment list at
all. -/
theorem attachment_filename_criterion (files : List UploadFile) :
    (files.any filenameTruthy = false → processFiles (some files) = none) ∧
    (∀ f ∈ files, filenameTruthy f = true →
      ∃ l, processFiles (some files) = some l ∧ mkFileInfo f ∈ l) ∧
    processFiles none = none ∧
    (∀ l, processFiles (some files) = some l →
      l = (files.filter filenameTruthy).map mkFileInfo) ∧
    (∀ l, processFiles (some files) = some l →
      ∀ x ∈ l, ∃ g ∈ files, filenameTruthy g = true ∧ x = mkFileInfo g) := by
  have hchar : ∀ l, processFiles (some files) = some l →
      l = (files.filter filenameTruthy).map mkFileInfo := by
    intro l hl
    simp only [processFiles] at hl
    by_cases hc : files ≠ [] ∧ files.any filenameTruthy
    · rw [if_pos hc] at hl
      injection hl with h
      rw [← h]
      exact filterMap_ite_eq_map_filter _ _ files
    · rw [if_neg hc] at hl
      simp at hl
  refine ⟨fun hnone => ?_, fun f hf ht => ?_, rfl, hchar, fun l hl x hx => ?_⟩
  · simp [processFiles, hnone]
  · have hany : files.any filenameTruthy = true :=
      List.any_eq_true.mpr ⟨f, hf, ht⟩
    have hne : files ≠ [] := by
      intro h
      subst h
      simp at hf
    refine ⟨files.filterMap fun g =>
      if filenameTruthy g then some (mkFileInfo g) else none, ?_, ?_⟩
    · simp [processFiles, hne, hany]
    · exact List.mem_filterMap.mpr ⟨f, hf, by simp [ht]⟩
  · rw [hchar l hl] at hx
    rcases List.mem_map.mp hx with ⟨g, hg, hgx⟩
    rcases List.mem_filter.mp hg with ⟨hgf, hgt⟩
    exact ⟨g, hgf, hgt, hgx.symm⟩

/-- C4 witness: a zero-byte upload with a filename is normalized and
forwarded, and in a batch mixing a truthy-filename upload with a
bytes-but-no-filename upload the attachment list built is exactly the
normalization of the truthy-filename upload — the no-filename upload is
skipped although it carries bytes. -/
theorem attachment_filename_criterion_witness :
    (∃ l, processFiles (some [⟨some "empty.bin", none, []⟩]) = some l ∧
        mkFileInfo ⟨some "empty.bin", none, []⟩ ∈ l) ∧
    [mkFileInfo ⟨some "a.txt", none, [65]⟩] =
      (([⟨some "a.txt", none, [65]⟩,
         ⟨none, none, [1, 2, 3]⟩] : List UploadFile).filter
          filenameTruthy).map mkFileInfo :=
  ⟨(attachment_filename_criterion [⟨some "empty.bin", none, []⟩]).2.1
      ⟨some "empty.bin", none, []⟩ (by simp) (by decide),
   (attachment_filename_criterion
      [⟨some "a.txt", none, [65]⟩, ⟨none, none, [1, 2, 3]⟩]).2.2.2.1
      [mkFileInfo ⟨some "a.txt", none, [65]⟩] (by decide)⟩

/-- C7: history retrieval for a stored session returns at most 50
messages which form a suffix of the full history in insertion order,
while the reported total equals the full history length. -/
theorem history_window_bounded_suffix (store : String → Option ChatHistory)
    (sid : String) (uid : Option String) (h : ChatHistory)
    (hs : store sid = some h) :
    (get_chat_history store sid uid).messages.length ≤ 50 ∧
    (get_chat_history store sid uid).messages <:+ h.messages ∧
    (get_chat_history store sid uid).total_messages = some h.messages.length := by
  refine ⟨?_, ?_, ?_⟩ <;>
    simp only [get_chat_history, hs, get_recent_messages]
  · simp only [List.length_drop]
    omega
  · exact List.drop_suffix _ _

/-- C7 witness. -/
theorem history_window_bounded_suffix_witness :
    (get_chat_history
        (fun s => if s = "s1" then some ⟨[⟨"user", "hi", "t1"⟩], "t0", "t1"⟩ else none)
        "s1" none).messages.length ≤ 50 ∧
    (get_chat_history
        (fun s => if s = "s1" then some ⟨[⟨"user", "hi", "t1"⟩], "t0", "t1"⟩ else none)
        "s1" none).messages <:+ [⟨"user", "hi", "t1"⟩] ∧
    (get_chat_history
        (fun s => if s = "s1" then some ⟨[⟨"user", "hi", "t1"⟩], "t0", "t1"⟩ else none)
        "s1" none).total_messages = some 1 :=
  history_window_bounded_suffix
    (fun s => if s = "s1" then some ⟨[⟨"user", "hi", "t1"⟩], "t0", "t1"⟩ else none)
    "s1" none ⟨[⟨"user", "hi", "t1"⟩], "t0", "t1"⟩ (by simp)

/-- C8: creating two sessions with fresh identifiers yields two distinct
session ids, and the subsequent session listing contains both, each with
message count zero. -/
theorem create_session_twice_listed (st : ServerState)
    (i1 i2 now1 now2 : String) (hne : i1 ≠ i2)
    (h1 : hasSession st i1 = false) (h2 : hasSession st i2 = false) :
    (create_new_session st i1 now1).2.session_id ≠
      (create_new_session
        (create_new_session st i1 now1).1 i2 now2).2.session_id ∧
    (∃ e ∈ (list_active_sessions
        (create_new_session
          (create_new_session st i1 now1).1 i2 now2).1).sessions,
      e.session_id = i1 ∧ e.message_count = 0) ∧
    (∃ e ∈ (list_active_sessions
        (create_new_session
          (create_new_session st i1 now1).1 i2 now2).1).sessions,
      e.session_id = i2 ∧ e.message_count = 0) := by
  have hst1 : (create_new_session st i1 now1).1.chat_histories =
      st.chat_histories ++ [(i1, ⟨[], now1, now1⟩)] := by
    simp [create_new_session, ensure_chat_history, h1]
  have hs2 : hasSession (create_new_session st i1 now1).1 i2 = false := by
    simp only [hasSession, hst1, List.any_append, List.any_cons, List.any_nil,
      Bool.or_eq_false_iff]
    refine ⟨h2, ?_⟩
    simp [hne]
  have hb2 : ¬ (hasSession (create_new_session st i1 now1).1 i2 = true) := by
    simp [hs2]
  have hst2 : (create_new_session
      (create_new_session st i1 now1).1 i2 now2).1.chat_histories =
      st.chat_histories ++ [(i1, ⟨[], now1, now1⟩), (i2, ⟨[], now2, now2⟩)] := by
    show (ensure_chat_history (create_new_session st i1 now1).1 i2 now2).chat_histories =
      st.chat_histories ++ [(i1, ⟨[], now1, now1⟩), (i2, ⟨[], now2, now2⟩)]
    unfold ensure_chat_history
    rw [if_neg hb2]
    simp [hst1]
  refine ⟨hne, ?_, ?_⟩
  · refine ⟨sessionInfoOf i1 ⟨[], now1, now1⟩, ?_, rfl, rfl⟩
    have hmem : (i1, (⟨[], now1, now1⟩ : ChatHistory)) ∈ (create_new_session
        (create_new_session st i1 now1).1 i2 now2).1.chat_histories := by
      rw [hst2]
      simp
    exact List.mem_map_of_mem _ hmem
  · refine ⟨sessionInfoOf i2 ⟨[], now2, now2⟩, ?_, rfl, rfl⟩
    have hmem : (i2, (⟨[], now2, now2⟩ : ChatHistory)) ∈ (create_new_session
        (create_new_session st i1 now1).1 i2 now2).1.chat_histories := by
      rw [hst2]
      simp
    exact List.mem_map_of_mem _ hmem

/-- C8 witness. -/
theorem create_session_twice_listed_witness :
    (create_new_session ⟨[]⟩ "id-a" "t1").2.session_id ≠
      (create_new_session
        (create_new_session ⟨[]⟩ "id-a" "t1").1 "id-b" "t2").2.session_id ∧
    (∃ e ∈ (list_active_sessions
        (create_new_session
          (create_new_session ⟨[]⟩ "id-a" "t1").1 "id-b" "t2").1).sessions,
      e.session_id = "id-a" ∧ e.message_count = 0) ∧
    (∃ e ∈ (list_active_sessions
        (create_new_session
          (create_new_session ⟨[]⟩ "id-a" "t1").1 "id-b" "t2").1).sessions,
      e.session_id = "id-b" ∧ e.message_count = 0) :=
  create_session_twice_listed ⟨[]⟩ "id-a" "id-b" "t1" "t2" (by decide) rfl rfl

/-- C10: in both session listings every entry's last-message preview is
the first 100 characters of the most recent message's content with the
literal suffix `"..."` appended unconditionally (also when the content is
100 characters or shorter), and is `""` when the session has no
messages. -/
theorem last_message_preview_format (sid : String) (h : ChatHistory) :
    (h.messages = [] → (sessionInfoOf sid h).last_message_preview = "") ∧
    (∀ m, h.messages.getLast? = some m →
      (sessionInfoOf sid h).last_message_preview =
        sliceTo m.content 100 ++ "...") ∧
    (∀ m, h.messages.getLast? = some m → m.content.length ≤ 100 →
      (sessionInfoOf sid h).last_message_preview = m.content ++ "...") ∧
    (∀ st : ServerState, (list_active_sessions st).sessions =
      st.chat_histories.map fun p => sessionInfoOf p.1 p.2) ∧
    (∀ (us : List String) (store : String → Option ChatHistory) (uid : String),
      (get_user_sessions us store uid).sessions =
        us.filterMap fun s => (store s).map (sessionInfoOf s)) := by
  refine ⟨fun hm => ?_, fun m hm => ?_, fun m hm hlen => ?_,
    fun st => rfl, fun us store uid => rfl⟩
  · simp [sessionInfoOf, hm]
  · simp [sessionInfoOf, hm]
  · have : sliceTo m.content 100 = m.content := by
      show String.mk (m.content.data.take 100) = m.content
      rw [List.take_of_length_le hlen]
    simp [sessionInfoOf, hm, this]

/-- C10 witness: a 2-character content still gets `"..."` appended. -/
theorem last_message_preview_format_witness :
    (sessionInfoOf "s1" ⟨[⟨"user", "hi", "t1"⟩], "t0", "t1"⟩).last_message_preview =
      "hi" ++ "..." :=
  (last_message_preview_format "s1" ⟨[⟨"user", "hi", "t1"⟩], "t0", "t1"⟩).2.2.1
    ⟨"user", "hi", "t1"⟩ rfl (by decide)
